import Mathlib

/-!
Verification of the classifier logic of `check_truenas_extended_play.py`.

The Python source is shallowly embedded below.  Pure per-record loops become
`List.foldl` over explicit accumulator structures whose fields carry the
source's local-variable names; a check's `print` + `sys.exit(code)` pair
becomes a `Verdict` value holding the printed line and the exit code.
A second, JSON-level embedding (`Json`, the `run_check_*` functions) models
the raw-payload path: a failure raised inside a check's `try` block makes
the whole check collapse to an UNKNOWN verdict, iteration follows Python's
semantics for lists, dicts and strings, and the one failure the source does
not catch — the update check's message formatting on a present but
non-string status, outside its `try` — is an uncaught crash (`Outcome`).
-/

set_option autoImplicit false

/-- The observable outcome of one check invocation: the single line printed
to stdout and the process exit code. -/
structure Verdict where
  output : String
  exitCode : Nat
  deriving DecidableEq, Repr

/-- Python's `s.lower()`, applied characterwise (ASCII case folding). -/
def pyLower (s : String) : String :=
  String.mk (s.data.map Char.toLower)

/-- Python's `s.replace('\n', '. ')`: every newline character becomes
a period followed by a space. -/
def collapseNewlines (s : String) : String :=
  String.mk (s.data.foldr (fun c acc => if c = '\n' then '.' :: ' ' :: acc else c :: acc) [])

/-- Concatenation of a list of strings, in order, with no separator. -/
def concatAll (l : List String) : String :=
  l.foldr (· ++ ·) ""

/-- Python's `s.strip()`: remove leading and trailing whitespace. -/
def pyStrip (s : String) : String :=
  String.mk (((s.data.dropWhile Char.isWhitespace).reverse.dropWhile Char.isWhitespace).reverse)

/-- The first whitespace-delimited token of a line (characters before the
first space). -/
def firstToken (s : String) : String :=
  String.mk (s.data.takeWhile (fun c => c != ' '))

/-! ## Alert records and `check_alerts` (source lines 200-233) -/

/-- One item of the `alert/list` payload, as the alert loop reads it:
`alert['level']`, `alert['dismissed']`, `alert['formatted']`. -/
structure AlertRecord where
  level : String
  dismissed : Bool
  formatted : String
  deriving DecidableEq, Repr

/-- The mutable locals of the `check_alerts` loop. -/
structure AlertAcc where
  warn : Nat
  crit : Nat
  critial_messages : String
  warning_messages : String
  deriving DecidableEq, Repr

def initAlertAcc : AlertAcc := ⟨0, 0, "", ""⟩

/-- One iteration of the `check_alerts` loop body (source lines 210-219). -/
def alertStep (ignore_dismissed : Bool) (acc : AlertAcc) (alert : AlertRecord) : AlertAcc :=
  if ignore_dismissed && alert.dismissed then acc
  else if alert.level == "CRITICAL" then
    { acc with crit := acc.crit + 1,
               critial_messages :=
                 acc.critial_messages ++ "- (C) " ++ collapseNewlines alert.formatted ++ " " }
  else if alert.level == "WARNING" then
    { acc with warn := acc.warn + 1,
               warning_messages :=
                 acc.warning_messages ++ "- (W) " ++ collapseNewlines alert.formatted ++ " " }
  else acc

/-- The verdict `check_alerts` builds from the loop's final locals
(source lines 224-233). -/
def finish_check_alerts (acc : AlertAcc) : Verdict :=
  if acc.crit > 0 then
    ⟨"CRITICAL " ++ acc.critial_messages ++ acc.warning_messages, 2⟩
  else if acc.warn > 0 then
    ⟨"WARNING " ++ acc.warning_messages, 1⟩
  else
    ⟨"OK - No problem alerts", 0⟩

/-- Embedding of `check_alerts` on an already decoded list of alert records
(source lines 200-233, the non-exceptional path). -/
def check_alerts (ignore_dismissed : Bool) (alerts : List AlertRecord) : Verdict :=
  finish_check_alerts (alerts.foldl (alertStep ignore_dismissed) initAlertAcc)

/-- A record is skipped by the loop (the `continue`) iff dismissed alerts are
ignored and the record is dismissed. -/
def alertSkipped (ignore_dismissed : Bool) (a : AlertRecord) : Bool :=
  ignore_dismissed && a.dismissed

/-- A record counts as critical: not skipped and level `CRITICAL`. -/
def countsCritical (ignore_dismissed : Bool) (a : AlertRecord) : Bool :=
  !alertSkipped ignore_dismissed a && a.level == "CRITICAL"

/-- A record counts as warning: not skipped and level `WARNING`. -/
def countsWarning (ignore_dismissed : Bool) (a : AlertRecord) : Bool :=
  !alertSkipped ignore_dismissed a && a.level == "WARNING"

/-- The message fragment a critical record contributes. -/
def critFragment (a : AlertRecord) : String :=
  "- (C) " ++ collapseNewlines a.formatted ++ " "

/-- The message fragment a warning record contributes. -/
def warnFragment (a : AlertRecord) : String :=
  "- (W) " ++ collapseNewlines a.formatted ++ " "

/-! ## Pool records and `check_zpool` (source lines 235-291) -/

/-- One item of the `pool` payload, as the zpool loop reads it:
`pool['name']` and `pool['status']`. -/
structure PoolRecord where
  name : String
  status : String
  deriving DecidableEq, Repr

/-- Embedding of `self._zpool_name.lower() == "all"` (source line 248). -/
def looking_for_all_pools (zpool_name : String) : Bool :=
  pyLower zpool_name == "all"

/-- The mutable locals of the `check_zpool` loop. -/
structure ZpoolAcc where
  warn : Nat
  crit : Nat
  critial_messages : String
  warning_messages : String
  zpools_examined : String
  actual_zpool_count : Nat
  all_pool_names : String
  deriving DecidableEq, Repr

def initZpoolAcc : ZpoolAcc := ⟨0, 0, "", "", "", 0, ""⟩

/-- A pool is relevant when every pool was requested or its name matches the
requested name exactly (source line 262). -/
def relevantPool (zpool_name : String) (pool : PoolRecord) : Bool :=
  looking_for_all_pools zpool_name || zpool_name == pool.name

/-- One iteration of the `check_zpool` loop body (source lines 251-268). -/
def zpoolStep (zpool_name : String) (acc : ZpoolAcc) (pool : PoolRecord) : ZpoolAcc :=
  let acc := { acc with actual_zpool_count := acc.actual_zpool_count + 1,
                        all_pool_names := acc.all_pool_names ++ pool.name ++ " " }
  if looking_for_all_pools zpool_name || zpool_name == pool.name then
    let acc := { acc with zpools_examined := acc.zpools_examined ++ " " ++ pool.name }
    if pool.status != "ONLINE" then
      { acc with crit := acc.crit + 1,
                 critial_messages :=
                   acc.critial_messages ++ "- (C) ZPool " ++ pool.name ++ "is " ++ pool.status }
    else acc
  else acc

/-- The fragment a relevant non-ONLINE pool contributes (note the source's
missing space before "is"). -/
def zpoolCritFragment (pool : PoolRecord) : String :=
  "- (C) ZPool " ++ pool.name ++ "is " ++ pool.status

/-- The verdict `check_zpool` builds from the loop's final locals: the two
post-loop `if` statements in source order, then the print/exit chain
(source lines 273-291). -/
def finish_check_zpool (zpool_name : String) (acc : ZpoolAcc) : Verdict :=
  let zpools_examined :=
    if acc.zpools_examined == "" && acc.actual_zpool_count == 0 &&
         looking_for_all_pools zpool_name then
      "(None - No Zpools found)"
    else acc.zpools_examined
  let named_miss :=
    zpools_examined == "" && decide (0 < acc.actual_zpool_count) &&
      !looking_for_all_pools zpool_name && acc.crit == 0
  let crit := if named_miss then acc.crit + 1 else acc.crit
  let critial_messages :=
    if named_miss then
      "- No Zpools found matching " ++ zpool_name ++ " out of " ++
        toString acc.actual_zpool_count ++ " pools (" ++ acc.all_pool_names ++ ")"
    else acc.critial_messages
  if crit > 0 then
    ⟨"CRITICAL " ++ critial_messages ++ acc.warning_messages, 2⟩
  else if acc.warn > 0 then
    ⟨"WARNING " ++ acc.warning_messages, 1⟩
  else
    ⟨"OK - No problem Zpools. Zpools examined: " ++ zpools_examined, 0⟩

/-- Embedding of `check_zpool` on an already decoded pool list (source lines 235-291,
the non-exceptional path). -/
def check_zpool (zpool_name : String) (pools : List PoolRecord) : Verdict :=
  finish_check_zpool zpool_name (pools.foldl (zpoolStep zpool_name) initZpoolAcc)

/-! ## Replication records and `check_repl` (source lines 127-159) -/

/-- One item of the `replication` payload as the loop reads it:
`repl['name']` and the nested `repl['state']['state']` code. -/
structure ReplRecord where
  name : String
  state_code : String
  deriving DecidableEq, Repr

/-- The mutable locals of the `check_repl` loop. -/
structure ReplAcc where
  errors : Nat
  msg : String
  replications_examined : String
  deriving DecidableEq, Repr

def initReplAcc : ReplAcc := ⟨0, "", ""⟩

/-- A replication record is a problem iff its state code is neither
`FINISHED` nor `RUNNING` (source lines 145-147). -/
def replProblem (r : ReplRecord) : Bool :=
  r.state_code != "FINISHED" && r.state_code != "RUNNING"

/-- One iteration of the `check_repl` loop body (source lines 134-149). -/
def replStep (acc : ReplAcc) (r : ReplRecord) : ReplAcc :=
  let acc := { acc with replications_examined :=
                 acc.replications_examined ++ " " ++ r.name ++ ": " ++ r.state_code }
  if replProblem r then
    { acc with errors := acc.errors + 1,
               msg := acc.msg ++ r.name ++ ": " ++ r.state_code }
  else acc

/-- The verdict `check_repl` builds from the loop's final locals
(source lines 154-159). -/
def finish_check_repl (acc : ReplAcc) : Verdict :=
  if acc.errors > 0 then
    ⟨"WARNING - There are " ++ toString acc.errors ++ " replication errors [" ++
       pyStrip acc.msg ++ "]. Go to Storage > Replication Tasks > View Replication Tasks in TrueNAS for more details.", 1⟩
  else
    ⟨"OK - No replication errors. Replications examined: " ++ acc.replications_examined, 0⟩

/-- Embedding of `check_repl` on an already decoded replication list (source lines
127-159, the non-exceptional path). -/
def check_repl (repls : List ReplRecord) : Verdict :=
  finish_check_repl (repls.foldl replStep initReplAcc)

/-! ## `check_update` (source lines 162-197) -/

/-- The fixed status table `updateCheckResultDict` (source lines 171-176). -/
def updateCheckResultDict (s : String) : Option String :=
  if s = "UNAVAILABLE" then some "no update available"
  else if s = "AVAILABLE" then some "an update is available"
  else if s = "REBOOT_REQUIRED" then some "an update has already been applied"
  else if s = "HA_UNAVAILABLE" then some "HA is non-functional"
  else none

/-- Embedding of `check_update` on the already extracted `status` string (source lines
162-197, the non-exceptional path).  `needsUpdateOrOtherPossibleIssue` is
`status != 'UNAVAILABLE'`; the OK branch reads the table at the status,
which there is necessarily `UNAVAILABLE`. -/
def check_update (updateCheckResultString : String) : Verdict :=
  let needsUpdateOrOtherPossibleIssue := updateCheckResultString != "UNAVAILABLE"
  if needsUpdateOrOtherPossibleIssue then
    match updateCheckResultDict updateCheckResultString with
    | some desc =>
        ⟨"WARNING - Update Status: " ++ updateCheckResultString ++ " (" ++ desc ++
           "). Update may be required. Go to TrueNAS Dashboard -> System -> Update to check for newer version.", 1⟩
    | none =>
        ⟨"WARNING - Unknown Update Status: " ++ updateCheckResultString ++
           ". Update may be required. Go to TrueNAS Dashboard -> System -> Update to check for newer version.", 1⟩
  else
    ⟨"OK - Update Status: " ++ updateCheckResultString ++ " (" ++
       (updateCheckResultDict updateCheckResultString).getD "" ++ ")", 0⟩

/-! ## The raw-payload layer

`Json` models the decoded response body; each loop body becomes an
`Option`-valued step whose `none` models the exception that the surrounding
`try`/`except` turns into the check's UNKNOWN verdict.  The step fails
exactly where the Python body would raise: a key lookup on a missing key or
a non-object, and a string concatenation applied to a non-string value.
As in the source, values are read lazily — a field the body never reaches
for a given record cannot fail (for instance `formatted` of an alert whose
level is neither CRITICAL nor WARNING). -/

inductive Json where
  | null : Json
  | bool (b : Bool) : Json
  | str (s : String) : Json
  | num (n : Int) : Json
  | arr (items : List Json) : Json
  | obj (fields : List (String × Json)) : Json

/-- Subscript `j[key]` on a JSON object; `none` models the `KeyError`/`TypeError`
a subscript on a missing key or a non-object raises. -/
def Json.get? : Json → String → Option Json
  | .obj fields, key => fields.lookup key
  | _, _ => none

/-- The string payload of a JSON string; `none` models the `TypeError`
raised when a non-string meets string concatenation or `.replace`. -/
def Json.asString? : Json → Option String
  | .str s => some s
  | _ => none

/-- Comparison `value == True` on a JSON value: Python booleans are
numbers, so both the boolean `true` and the number 1 compare equal to
`True`; everything else does not. -/
def Json.isTrue : Json → Bool
  | .bool b => b
  | .num n => n == 1
  | _ => false

/-- Comparison of a JSON value with a string literal: true iff it is that string. -/
def Json.strEq : Json → String → Bool
  | .str s, t => s == t
  | _, _ => false

/-- Python iteration over a decoded JSON value, as the checks' `for`
statements perform it: a list yields its items, a dict yields its keys
(strings), a string yields its one-character substrings — so an empty dict
or empty string iterates zero times without raising.  Anything else raises
TypeError in the `for` statement itself, which sits inside the `try`;
`none` models that. -/
def Json.iterElems : Json → Option (List Json)
  | .arr items => some items
  | .obj fields => some (fields.map (fun kv => Json.str kv.fst))
  | .str s => some (s.data.map (fun c => Json.str (String.mk [c])))
  | _ => none

/-- The outcome of `do_request` (source lines 70-117): decoded JSON, a
network/HTTP failure (the broad `except` at line 108), or a JSON-decode
failure (line 115). -/
inductive FetchResult where
  | ok (payload : Json) : FetchResult
  | transportError (detail : String) : FetchResult
  | jsonError (detail : String) : FetchResult

/-- The verdict printed by `do_request` on a network/HTTP failure
(source line 109). -/
def transportFailVerdict (detail : String) : Verdict :=
  ⟨"UNKNOWN - request failed - Error when contacting TrueNAS server: " ++ detail, 3⟩

/-- The verdict printed by `do_request` on a JSON-decode failure
(source line 116). -/
def jsonFailVerdict (detail : String) : Verdict :=
  ⟨"UNKNOWN - json failed to parse - Error when contacting TrueNAS server: " ++ detail, 3⟩

/-- The verdict a check prints when its classification loop raises
(for example source line 221); the interpolated `sys.exc_info()` detail is
elided. -/
def structFailVerdict (checkName : String) : Verdict :=
  ⟨"UNKNOWN - " ++ checkName ++ " - Error when contacting TrueNAS server: ", 3⟩

/-- The process-observable outcome of a check: a printed stdout line with
its exit code, or an exception that no `try` catches — CPython then prints
a traceback to stderr, writes nothing to stdout, and terminates the process
with status 1. -/
inductive Outcome where
  | verdict (v : Verdict) : Outcome
  | uncaught : Outcome
  deriving DecidableEq, Repr

/-- The process exit status of an outcome (1 for an uncaught exception,
per CPython). -/
def Outcome.exitCode : Outcome → Nat
  | .verdict v => v.exitCode
  | .uncaught => 1

/-- The single line written to stdout, when any is. -/
def Outcome.printedLine : Outcome → Option String
  | .verdict v => some v.output
  | .uncaught => none

/-- The level/count/message part of the alert loop body
(source lines 214-219). -/
def alertClassify (acc : AlertAcc) (j : Json) : Option AlertAcc :=
  match j.get? "level" with
  | none => none
  | some lvl =>
    if lvl.strEq "CRITICAL" then
      match j.get? "formatted" with
      | none => none
      | some f =>
        match f.asString? with
        | none => none
        | some text =>
            some { acc with
                   crit := acc.crit + 1,
                   critial_messages :=
                     acc.critial_messages ++ "- (C) " ++ collapseNewlines text ++ " " }
    else if lvl.strEq "WARNING" then
      match j.get? "formatted" with
      | none => none
      | some f =>
        match f.asString? with
        | none => none
        | some text =>
            some { acc with
                   warn := acc.warn + 1,
                   warning_messages :=
                     acc.warning_messages ++ "- (W) " ++ collapseNewlines text ++ " " }
    else some acc

/-- The full alert loop body, including the short-circuiting dismissed-skip
(source lines 210-219): `alert['dismissed']` is only read when
`ignore_dismissed` is set. -/
def alertStepJson (ignore_dismissed : Bool) (acc : AlertAcc) (j : Json) : Option AlertAcc :=
  if ignore_dismissed then
    match j.get? "dismissed" with
    | none => none
    | some d => if d.isTrue then some acc else alertClassify acc j
  else alertClassify acc j

/-- The replication loop body on a raw item (source lines 134-149). -/
def replStepJson (acc : ReplAcc) (j : Json) : Option ReplAcc :=
  match j.get? "name" with
  | none => none
  | some nameJ =>
    match j.get? "state" with
    | none => none
    | some stateObj =>
      match stateObj.get? "state" with
      | none => none
      | some codeJ =>
        match nameJ.asString?, codeJ.asString? with
        | some name, some code => some (replStep acc ⟨name, code⟩)
        | _, _ => none

/-- The zpool loop body on a raw item (source lines 251-268).  The status
value is only forced into a string when a relevant pool is not ONLINE,
which is the only place the source concatenates it. -/
def zpoolStepJson (zpool_name : String) (acc : ZpoolAcc) (j : Json) : Option ZpoolAcc :=
  let acc0 := { acc with actual_zpool_count := acc.actual_zpool_count + 1 }
  match j.get? "name" with
  | none => none
  | some nameJ =>
    match j.get? "status" with
    | none => none
    | some statusJ =>
      match nameJ.asString? with
      | none => none
      | some pool_name =>
        let acc1 := { acc0 with all_pool_names := acc0.all_pool_names ++ pool_name ++ " " }
        if looking_for_all_pools zpool_name || zpool_name == pool_name then
          let acc2 := { acc1 with zpools_examined := acc1.zpools_examined ++ " " ++ pool_name }
          if !(statusJ.strEq "ONLINE") then
            match statusJ.asString? with
            | none => none
            | some pool_status =>
                some { acc2 with
                       crit := acc2.crit + 1,
                       critial_messages :=
                         acc2.critial_messages ++ "- (C) ZPool " ++ pool_name ++ "is " ++ pool_status }
          else some acc2
        else some acc1

/-- Embedding of `check_alerts` from the fetch outcome onward: the `for`
iterates whatever the payload yields (so an empty dict or string yields an
OK verdict), and any exception inside the `try` gives the UNKNOWN verdict. -/
def run_check_alerts (ignore_dismissed : Bool) (fetch : FetchResult) : Verdict :=
  match fetch with
  | .transportError d => transportFailVerdict d
  | .jsonError d => jsonFailVerdict d
  | .ok payload =>
    match payload.iterElems with
    | none => structFailVerdict "check_alerts()"
    | some items =>
      match items.foldlM (alertStepJson ignore_dismissed) initAlertAcc with
      | some acc => finish_check_alerts acc
      | none => structFailVerdict "check_alerts()"

/-- Embedding of `check_repl` from the fetch outcome onward. -/
def run_check_repl (fetch : FetchResult) : Verdict :=
  match fetch with
  | .transportError d => transportFailVerdict d
  | .jsonError d => jsonFailVerdict d
  | .ok payload =>
    match payload.iterElems with
    | none => structFailVerdict "check_repl()"
    | some items =>
      match items.foldlM replStepJson initReplAcc with
      | some acc => finish_check_repl acc
      | none => structFailVerdict "check_repl()"

/-- Embedding of `check_zpool` from the fetch outcome onward. -/
def run_check_zpool (zpool_name : String) (fetch : FetchResult) : Verdict :=
  match fetch with
  | .transportError d => transportFailVerdict d
  | .jsonError d => jsonFailVerdict d
  | .ok payload =>
    match payload.iterElems with
    | none => structFailVerdict "check_zpool()"
    | some items =>
      match items.foldlM (zpoolStepJson zpool_name) initZpoolAcc with
      | some acc => finish_check_zpool zpool_name acc
      | none => structFailVerdict "check_zpool()"

/-- Embedding of `check_update` from the fetch outcome onward.  The `try`
(source lines 178-186) covers only `updateCheckResult['status']` and the
`!=` comparison, so a missing field is caught (UNKNOWN).  A present but
non-string status compares unequal to "UNAVAILABLE", then the message
concatenation at lines 188-196 — outside the `try` — raises an uncaught
TypeError: no stdout line, exit status 1. -/
def run_check_update (fetch : FetchResult) : Outcome :=
  match fetch with
  | .transportError d => .verdict (transportFailVerdict d)
  | .jsonError d => .verdict (jsonFailVerdict d)
  | .ok payload =>
    match payload.get? "status" with
    | none => .verdict (structFailVerdict "check_update()")
    | some (Json.str updateCheckResultString) => .verdict (check_update updateCheckResultString)
    | some _ => .uncaught

/-- A payload on which the alert classification loop raises inside the
`try`: a non-iterable payload, or a yielded record the loop body fails on. -/
def alertsStructuralFailure (ignore_dismissed : Bool) (payload : Json) : Bool :=
  match payload.iterElems with
  | some items => (items.foldlM (alertStepJson ignore_dismissed) initAlertAcc).isNone
  | none => true

/-- A payload on which the replication classification loop raises inside
the `try`. -/
def replStructuralFailure (payload : Json) : Bool :=
  match payload.iterElems with
  | some items => (items.foldlM replStepJson initReplAcc).isNone
  | none => true

/-- A payload on which the zpool classification loop raises inside the
`try`. -/
def zpoolStructuralFailure (zpool_name : String) (payload : Json) : Bool :=
  match payload.iterElems with
  | some items => (items.foldlM (zpoolStepJson zpool_name) initZpoolAcc).isNone
  | none => true

/-- A payload on which the update status extraction raises inside the
`try`: only the subscript can fail there, i.e. the status field is missing
or the payload is not an object. -/
def updateStructuralFailure (payload : Json) : Bool :=
  (payload.get? "status").isNone

/-- A payload whose status field is present but not a string: the `try`
succeeds, and the update check then crashes uncaught at message formatting
(source lines 188-196). -/
def updateCrashes (payload : Json) : Bool :=
  match payload.get? "status" with
  | some (Json.str _) => false
  | some _ => true
  | none => false

/-- The dispatcher `handle_requested_alert_type` (source lines 293-304),
with the fetch outcome the selected check would observe passed explicitly. -/
def handle_requested_alert_type (ignore_dismissed : Bool) (zpool_name : String)
    (alert_type : String) (fetch : FetchResult) : Outcome :=
  if alert_type == "alerts" then .verdict (run_check_alerts ignore_dismissed fetch)
  else if alert_type == "repl" then .verdict (run_check_repl fetch)
  else if alert_type == "update" then run_check_update fetch
  else if alert_type == "zpool" then .verdict (run_check_zpool zpool_name fetch)
  else .verdict ⟨"Unknown type: " ++ alert_type, 3⟩

/-- The monitoring-plugin convention the spec states: the exit code is the
numeric form of the severity word that begins the printed line. -/
def verdictConsistent (v : Verdict) : Bool :=
  (v.exitCode == 0 && firstToken v.output == "OK") ||
  (v.exitCode == 1 && firstToken v.output == "WARNING") ||
  (v.exitCode == 2 && firstToken v.output == "CRITICAL") ||
  (v.exitCode == 3 && firstToken v.output == "UNKNOWN")

/-- Stdout/exit-code agreement at the process level: whenever a line is
printed, its first token is the severity word matching the exit code; an
uncaught crash prints no stdout line, so there is nothing to match. -/
def outcomeConsistent : Outcome → Bool
  | .verdict v => verdictConsistent v
  | .uncaught => true

/-! ## Generic helper lemmas -/

theorem concatAll_nil : concatAll [] = "" := rfl

theorem concatAll_cons (s : String) (l : List String) :
    concatAll (s :: l) = s ++ concatAll l := rfl

theorem takeWhile_append_left {α : Type} (p : α → Bool) (l₁ l₂ : List α)
    (h : ∃ x ∈ l₁, p x = false) :
    List.takeWhile p (l₁ ++ l₂) = List.takeWhile p l₁ := by
  induction l₁ with
  | nil =>
    rcases h with ⟨x, hx, _⟩
    cases hx
  | cons a l ih =>
    rcases h with ⟨x, hx, hpx⟩
    cases hpa : p a with
    | false => simp [List.takeWhile_cons, hpa]
    | true =>
      rcases List.mem_cons.mp hx with rfl | hxl
      · rw [hpa] at hpx; cases hpx
      · simp only [List.cons_append, List.takeWhile_cons, hpa, if_true]
        rw [ih ⟨x, hxl, hpx⟩]

theorem firstToken_append (a b : String) (h : ' ' ∈ a.data) :
    firstToken (a ++ b) = firstToken a := by
  unfold firstToken
  rw [String.data_append, takeWhile_append_left]
  exact ⟨' ', h, by decide⟩

/-! ## Characterization of the alert loop -/

theorem alerts_foldl_eq (ignore_dismissed : Bool) (l : List AlertRecord) (acc : AlertAcc) :
    l.foldl (alertStep ignore_dismissed) acc =
      ⟨acc.warn + (l.filter (countsWarning ignore_dismissed)).length,
       acc.crit + (l.filter (countsCritical ignore_dismissed)).length,
       acc.critial_messages ++
         concatAll ((l.filter (countsCritical ignore_dismissed)).map critFragment),
       acc.warning_messages ++
         concatAll ((l.filter (countsWarning ignore_dismissed)).map warnFragment)⟩ := by
  induction l generalizing acc with
  | nil => simp [concatAll]
  | cons a l ih =>
    rw [List.foldl_cons, ih]
    by_cases hskip : (ignore_dismissed && a.dismissed) = true
    · have hc : countsCritical ignore_dismissed a = false := by
        simp [countsCritical, alertSkipped, hskip]
      have hw : countsWarning ignore_dismissed a = false := by
        simp [countsWarning, alertSkipped, hskip]
      simp [alertStep, hskip, List.filter_cons, hc, hw]
    · by_cases hcrit : (a.level == "CRITICAL") = true
      · have hc : countsCritical ignore_dismissed a = true := by
          simp [countsCritical, alertSkipped, hskip, hcrit]
        have hw : countsWarning ignore_dismissed a = false := by
          have hlvl := eq_of_beq hcrit
          simp [countsWarning, alertSkipped, hlvl]
        simp only [alertStep, hskip, hcrit, if_false, if_true, Bool.false_eq_true,
          List.filter_cons, hc, hw, List.map_cons, List.length_cons, concatAll_cons]
        simp only [AlertAcc.mk.injEq, and_true, true_and]
        refine ⟨by omega, ?_⟩
        simp [critFragment, String.append_assoc]
      · by_cases hwarn : (a.level == "WARNING") = true
        · have hc : countsCritical ignore_dismissed a = false := by
            have hlvl := eq_of_beq hwarn
            simp [countsCritical, alertSkipped, hlvl]
          have hw : countsWarning ignore_dismissed a = true := by
            simp [countsWarning, alertSkipped, hskip, hwarn]
          simp only [alertStep, hskip, hcrit, hwarn, if_false, if_true, Bool.false_eq_true,
            List.filter_cons, hc, hw, List.map_cons, List.length_cons, concatAll_cons]
          simp only [AlertAcc.mk.injEq, and_true, true_and]
          refine ⟨by omega, ?_⟩
          simp [warnFragment, String.append_assoc]
        · have hc : countsCritical ignore_dismissed a = false := by
            simp [countsCritical, alertSkipped, hcrit]
          have hw : countsWarning ignore_dismissed a = false := by
            simp [countsWarning, alertSkipped, hwarn]
          simp [alertStep, hskip, hcrit, hwarn, List.filter_cons, hc, hw]

/-- C1: if at least one record that is not skipped has level CRITICAL,
`check_alerts` produces exit code 2 and its message is all critical
fragments, in order, followed by all warning fragments, regardless of how
many WARNING records there are. -/
theorem alerts_critical_dominates (ignore_dismissed : Bool) (alerts : List AlertRecord)
    (h : ∃ a ∈ alerts, countsCritical ignore_dismissed a = true) :
    check_alerts ignore_dismissed alerts =
      ⟨"CRITICAL " ++
         concatAll ((alerts.filter (countsCritical ignore_dismissed)).map critFragment) ++
         concatAll ((alerts.filter (countsWarning ignore_dismissed)).map warnFragment), 2⟩ := by
  rcases h with ⟨a, ha, hca⟩
  have hmem : a ∈ alerts.filter (countsCritical ignore_dismissed) :=
    List.mem_filter.mpr ⟨ha, hca⟩
  have hpos : 0 < (alerts.filter (countsCritical ignore_dismissed)).length :=
    List.length_pos.mpr (List.ne_nil_of_mem hmem)
  unfold check_alerts
  rw [alerts_foldl_eq]
  simp only [initAlertAcc, finish_check_alerts]
  rw [if_pos (by simpa using hpos)]
  simp [String.empty_append]

/-- C1 witness: a concrete list with one critical and one warning record. -/
theorem alerts_critical_dominates_witness :
    (∃ a ∈ [AlertRecord.mk "CRITICAL" false "boom", AlertRecord.mk "WARNING" false "warn"],
        countsCritical true a = true) ∧
    check_alerts true
        [AlertRecord.mk "CRITICAL" false "boom", AlertRecord.mk "WARNING" false "warn"] =
      ⟨"CRITICAL " ++
         concatAll (([AlertRecord.mk "CRITICAL" false "boom",
            AlertRecord.mk "WARNING" false "warn"].filter (countsCritical true)).map critFragment) ++
         concatAll (([AlertRecord.mk "CRITICAL" false "boom",
            AlertRecord.mk "WARNING" false "warn"].filter (countsWarning true)).map warnFragment), 2⟩ :=
  ⟨by decide, alerts_critical_dominates true _ (by decide)⟩

/-- C2: a dismissed CRITICAL record is invisible to the whole loop state when
`ignore_dismissed` is true (so also to the verdict), and is counted as one
more critical when `ignore_dismissed` is false. -/
theorem dismissed_critical_invisible_or_counted (a : AlertRecord)
    (pre post : List AlertRecord) (hd : a.dismissed = true) (hl : a.level = "CRITICAL") :
    ((pre ++ a :: post).foldl (alertStep true) initAlertAcc =
      (pre ++ post).foldl (alertStep true) initAlertAcc) ∧
    check_alerts true (pre ++ a :: post) = check_alerts true (pre ++ post) ∧
    ((pre ++ a :: post).foldl (alertStep false) initAlertAcc).crit =
      ((pre ++ post).foldl (alertStep false) initAlertAcc).crit + 1 := by
  have hfold : ∀ acc : AlertAcc,
      (pre ++ a :: post).foldl (alertStep true) acc =
        (pre ++ post).foldl (alertStep true) acc := by
    intro acc
    rw [List.foldl_append, List.foldl_append, List.foldl_cons]
    congr 1
    simp [alertStep, hd]
  refine ⟨hfold _, ?_, ?_⟩
  · unfold check_alerts
    rw [hfold]
  · rw [alerts_foldl_eq, alerts_foldl_eq]
    have hca : countsCritical false a = true := by
      simp [countsCritical, alertSkipped, hl]
    simp [List.filter_append, List.filter_cons, hca, initAlertAcc, List.length_append]
    omega

/-- C2 witness: a concrete dismissed critical record between two others. -/
theorem dismissed_critical_invisible_or_counted_witness :
    ((AlertRecord.mk "CRITICAL" true "d").dismissed = true ∧
      (AlertRecord.mk "CRITICAL" true "d").level = "CRITICAL") ∧
    check_alerts true
        ([AlertRecord.mk "WARNING" false "w"] ++ AlertRecord.mk "CRITICAL" true "d" ::
          [AlertRecord.mk "INFO" false "i"]) =
      check_alerts true ([AlertRecord.mk "WARNING" false "w"] ++ [AlertRecord.mk "INFO" false "i"]) ∧
    (([AlertRecord.mk "WARNING" false "w"] ++ AlertRecord.mk "CRITICAL" true "d" ::
        [AlertRecord.mk "INFO" false "i"]).foldl (alertStep false) initAlertAcc).crit =
      (([AlertRecord.mk "WARNING" false "w"] ++
          [AlertRecord.mk "INFO" false "i"]).foldl (alertStep false) initAlertAcc).crit + 1 :=
  ⟨⟨rfl, rfl⟩,
    (dismissed_critical_invisible_or_counted _ _ _ rfl rfl).2.1,
    (dismissed_critical_invisible_or_counted _ _ _ rfl rfl).2.2⟩

/-! ## Characterization of the zpool loop -/

theorem zpool_foldl_eq (zpool_name : String) (l : List PoolRecord) (acc : ZpoolAcc) :
    l.foldl (zpoolStep zpool_name) acc =
      ⟨acc.warn,
       acc.crit +
         (l.filter (fun p => relevantPool zpool_name p && p.status != "ONLINE")).length,
       acc.critial_messages ++
         concatAll ((l.filter
           (fun p => relevantPool zpool_name p && p.status != "ONLINE")).map zpoolCritFragment),
       acc.warning_messages,
       acc.zpools_examined ++
         concatAll ((l.filter (relevantPool zpool_name)).map (fun p => " " ++ p.name)),
       acc.actual_zpool_count + l.length,
       acc.all_pool_names ++ concatAll (l.map (fun p => p.name ++ " "))⟩ := by
  induction l generalizing acc with
  | nil => simp [concatAll]
  | cons p l ih =>
    rw [List.foldl_cons, ih]
    cases hrel : (looking_for_all_pools zpool_name || zpool_name == p.name) with
    | false =>
      have hrelp : relevantPool zpool_name p = false := by
        simp only [relevantPool, hrel]
      simp [zpoolStep, hrel, List.filter_cons, hrelp, concatAll_cons, String.append_assoc]
      all_goals omega
    | true =>
      have hrelp : relevantPool zpool_name p = true := by
        simp only [relevantPool, hrel]
      cases hstat : (p.status != "ONLINE") with
      | true =>
        simp [zpoolStep, hrel, hstat, List.filter_cons, hrelp, zpoolCritFragment,
          concatAll_cons, String.append_assoc]
        all_goals omega
      | false =>
        simp [zpoolStep, hrel, hstat, List.filter_cons, hrelp, concatAll_cons,
          String.append_assoc]
        all_goals omega

/-- C5: a pool is relevant iff the filter is the case-insensitive "all"
sentinel or the pool name equals the filter exactly; every relevant pool
whose status is not "ONLINE" contributes exactly one critical fragment, in
scan order (all pools are scanned), relevant ONLINE pools contribute none,
and the examined listing is exactly the relevant pools. -/
theorem zpool_relevance_and_fragments (zpool_name : String) (pools : List PoolRecord) :
    (∀ p : PoolRecord, relevantPool zpool_name p =
        (pyLower zpool_name == "all" || zpool_name == p.name)) ∧
    (pools.foldl (zpoolStep zpool_name) initZpoolAcc).crit =
      (pools.filter (fun p => relevantPool zpool_name p && p.status != "ONLINE")).length ∧
    (pools.foldl (zpoolStep zpool_name) initZpoolAcc).critial_messages =
      concatAll ((pools.filter
        (fun p => relevantPool zpool_name p && p.status != "ONLINE")).map zpoolCritFragment) ∧
    (pools.foldl (zpoolStep zpool_name) initZpoolAcc).zpools_examined =
      concatAll ((pools.filter (relevantPool zpool_name)).map (fun p => " " ++ p.name)) := by
  refine ⟨fun p => rfl, ?_, ?_, ?_⟩ <;>
    rw [zpool_foldl_eq] <;>
      simp [initZpoolAcc, String.empty_append]

/-- C3: the "all" sentinel with an empty pool list yields OK (exit 0) and a
message stating that no pools were found. -/
theorem zpool_all_empty_ok (zpool_name : String)
    (h : looking_for_all_pools zpool_name = true) :
    check_zpool zpool_name [] =
      ⟨"OK - No problem Zpools. Zpools examined: (None - No Zpools found)", 0⟩ := by
  show finish_check_zpool zpool_name initZpoolAcc = _
  simp [finish_check_zpool, initZpoolAcc, h]

/-- C3 witness at the literal sentinel "all". -/
theorem zpool_all_empty_ok_witness :
    looking_for_all_pools "all" = true ∧
    check_zpool "all" [] =
      ⟨"OK - No problem Zpools. Zpools examined: (None - No Zpools found)", 0⟩ :=
  ⟨by decide, zpool_all_empty_ok "all" (by decide)⟩

/-- C10: a specific (non-sentinel) pool name with an empty pool list yields
OK (exit 0) with an empty examined listing, not the named-filter-miss
CRITICAL, because that branch requires a positive pool count. -/
theorem zpool_named_empty_ok (zpool_name : String)
    (h : looking_for_all_pools zpool_name = false) :
    check_zpool zpool_name [] =
      ⟨"OK - No problem Zpools. Zpools examined: ", 0⟩ := by
  show finish_check_zpool zpool_name initZpoolAcc = _
  simp [finish_check_zpool, initZpoolAcc, h]

/-- C10 witness at the filter name "tank". -/
theorem zpool_named_empty_ok_witness :
    looking_for_all_pools "tank" = false ∧
    check_zpool "tank" [] = ⟨"OK - No problem Zpools. Zpools examined: ", 0⟩ :=
  ⟨by decide, zpool_named_empty_ok "tank" (by decide)⟩

/-- C4 counterexample: with the specific filter "tank", a pool list in which
no pool has that name, and no other critical condition recorded, the check
does NOT produce CRITICAL when the pool list is empty — it exits 0. -/
theorem zpool_named_miss_counterexample :
    looking_for_all_pools "tank" = false ∧
    (∀ p ∈ ([] : List PoolRecord), ("tank" == p.name) = false) ∧
    check_zpool "tank" [] = ⟨"OK - No problem Zpools. Zpools examined: ", 0⟩ ∧
    (check_zpool "tank" []).exitCode ≠ 2 := by
  refine ⟨by decide, ?_, by decide, by decide⟩
  intro p hp
  cases hp

/-- C4 (amended with a non-empty pool list): a specific (non-sentinel)
filter that matches no pool in a non-empty pool list yields CRITICAL
(exit 2) with a message naming the requested filter, the total pool count,
and the names of the actual pools. -/
theorem zpool_named_miss_critical (zpool_name : String) (pools : List PoolRecord)
    (hall : looking_for_all_pools zpool_name = false)
    (hmiss : ∀ p ∈ pools, (zpool_name == p.name) = false)
    (hne : pools ≠ []) :
    check_zpool zpool_name pools =
      ⟨"CRITICAL - No Zpools found matching " ++ zpool_name ++ " out of " ++
         toString pools.length ++ " pools (" ++
         concatAll (pools.map (fun p => p.name ++ " ")) ++ ")", 2⟩ := by
  have hrelp : ∀ p ∈ pools, relevantPool zpool_name p = false := by
    intro p hp
    simp [relevantPool, hall, hmiss p hp]
  have hfilt_rel : pools.filter (relevantPool zpool_name) = [] := by
    rw [List.filter_eq_nil_iff]
    intro p hp
    simp [hrelp p hp]
  have hfilt_crit :
      pools.filter (fun p => relevantPool zpool_name p && p.status != "ONLINE") = [] := by
    rw [List.filter_eq_nil_iff]
    intro p hp
    simp [hrelp p hp]
  have hlen : 0 < pools.length := List.length_pos.mpr hne
  unfold check_zpool
  rw [zpool_foldl_eq]
  simp only [initZpoolAcc]
  simp [finish_check_zpool, hall, hfilt_rel, hfilt_crit, hlen, concatAll_nil,
    String.empty_append, String.append_empty, Nat.pos_iff_ne_zero]
  simp only [String.append_assoc]
  rw [← String.append_assoc "CRITICAL " "- No Zpools found matching "]
  have hlit : "CRITICAL " ++ "- No Zpools found matching " =
      "CRITICAL - No Zpools found matching " := by decide
  rw [hlit]

/-- C4 witness: filter "tank" against a single pool named "rpool". -/
theorem zpool_named_miss_critical_witness :
    (looking_for_all_pools "tank" = false ∧
      (∀ p ∈ [PoolRecord.mk "rpool" "ONLINE"], ("tank" == p.name) = false) ∧
      [PoolRecord.mk "rpool" "ONLINE"] ≠ []) ∧
    check_zpool "tank" [PoolRecord.mk "rpool" "ONLINE"] =
      ⟨"CRITICAL - No Zpools found matching tank out of 1 pools (rpool )", 2⟩ := by
  refine ⟨⟨by decide, by decide, by decide⟩, ?_⟩
  rw [zpool_named_miss_critical "tank" [PoolRecord.mk "rpool" "ONLINE"]
    (by decide) (by decide) (by decide)]
  decide

/-! ## Characterization of the replication loop -/

theorem repl_foldl_eq (l : List ReplRecord) (acc : ReplAcc) :
    l.foldl replStep acc =
      ⟨acc.errors + (l.filter replProblem).length,
       acc.msg ++ concatAll ((l.filter replProblem).map
         (fun r => r.name ++ ": " ++ r.state_code)),
       acc.replications_examined ++ concatAll (l.map
         (fun r => " " ++ r.name ++ ": " ++ r.state_code))⟩ := by
  induction l generalizing acc with
  | nil => simp [concatAll]
  | cons r l ih =>
    rw [List.foldl_cons, ih]
    cases hpr : replProblem r with
    | false =>
      simp [replStep, hpr, List.filter_cons, concatAll_cons, String.append_assoc]
    | true =>
      simp [replStep, hpr, List.filter_cons, concatAll_cons, String.append_assoc]
      omega

/-- C6: a replication record is a problem iff its nested state code is
neither FINISHED nor RUNNING; a positive problem count yields WARNING
(exit 1) with one fragment per problem, otherwise OK with a listing of
every replication name and its raw state code; the exit code is never 2. -/
theorem repl_problems_warning (repls : List ReplRecord) :
    (∀ r : ReplRecord,
        replProblem r = (r.state_code != "FINISHED" && r.state_code != "RUNNING")) ∧
    check_repl repls =
      (if 0 < (repls.filter replProblem).length then
        ⟨"WARNING - There are " ++ toString (repls.filter replProblem).length ++
           " replication errors [" ++
           pyStrip (concatAll ((repls.filter replProblem).map
             (fun r => r.name ++ ": " ++ r.state_code))) ++
           "]. Go to Storage > Replication Tasks > View Replication Tasks in TrueNAS for more details.", 1⟩
      else
        ⟨"OK - No replication errors. Replications examined: " ++
           concatAll (repls.map (fun r => " " ++ r.name ++ ": " ++ r.state_code)), 0⟩) ∧
    (check_repl repls).exitCode ≠ 2 := by
  have hc : check_repl repls =
      (if 0 < (repls.filter replProblem).length then
        ⟨"WARNING - There are " ++ toString (repls.filter replProblem).length ++
           " replication errors [" ++
           pyStrip (concatAll ((repls.filter replProblem).map
             (fun r => r.name ++ ": " ++ r.state_code))) ++
           "]. Go to Storage > Replication Tasks > View Replication Tasks in TrueNAS for more details.", 1⟩
      else
        ⟨"OK - No replication errors. Replications examined: " ++
           concatAll (repls.map (fun r => " " ++ r.name ++ ": " ++ r.state_code)), 0⟩) := by
    unfold check_repl
    rw [repl_foldl_eq]
    simp only [initReplAcc, finish_check_repl, String.empty_append, Nat.zero_add]
  refine ⟨fun r => rfl, hc, ?_⟩
  rw [hc]
  by_cases hpos : 0 < (repls.filter replProblem).length
  · simp [hpos]
  · simp [hpos]

/-- C7: the update check is OK (exit 0) exactly when the status is the
literal "UNAVAILABLE"; every other status, in the fixed table or not, gives
WARNING (exit 1, never 2), with the table's description when the status is
known and an explicit unknown-status message naming the literal string when
not. -/
theorem update_status_classification (updateCheckResultString : String) :
    ((check_update updateCheckResultString).exitCode = 0 ↔
      updateCheckResultString = "UNAVAILABLE") ∧
    (check_update updateCheckResultString).exitCode ≠ 2 ∧
    check_update updateCheckResultString =
      (if updateCheckResultString = "UNAVAILABLE" then
        ⟨"OK - Update Status: UNAVAILABLE (no update available)", 0⟩
      else
        match updateCheckResultDict updateCheckResultString with
        | some desc =>
            ⟨"WARNING - Update Status: " ++ updateCheckResultString ++ " (" ++ desc ++
               "). Update may be required. Go to TrueNAS Dashboard -> System -> Update to check for newer version.", 1⟩
        | none =>
            ⟨"WARNING - Unknown Update Status: " ++ updateCheckResultString ++
               ". Update may be required. Go to TrueNAS Dashboard -> System -> Update to check for newer version.", 1⟩) := by
  by_cases h : updateCheckResultString = "UNAVAILABLE"
  · subst h
    refine ⟨by decide, by decide, ?_⟩
    decide
  · have hb : (updateCheckResultString != "UNAVAILABLE") = true := by
      simp [bne, h]
    cases hdict : updateCheckResultDict updateCheckResultString with
    | some desc =>
      simp [check_update, hb, hdict, h]
    | none =>
      simp [check_update, hb, hdict, h]

/-! ## Failure behaviour of the raw-payload layer -/

theorem foldlM_none_char {σ α : Type} (step : σ → α → Option σ) (fail : α → Bool)
    (hstep : ∀ (acc : σ) (a : α), (step acc a).isNone = fail a) :
    ∀ (l : List α) (acc : σ), (l.foldlM step acc).isNone = l.any fail := by
  intro l
  induction l with
  | nil => intro acc; simp [List.foldlM]
  | cons a l ih =>
    intro acc
    simp only [List.foldlM, List.any_cons]
    cases hsa : step acc a with
    | none =>
      have hfa : fail a = true := by rw [← hstep acc a, hsa]; rfl
      simp [hsa, hfa]
    | some s2 =>
      have hfa : fail a = false := by rw [← hstep acc a, hsa]; rfl
      simp [hsa, hfa, ih s2]

theorem alertClassify_isNone (acc acc2 : AlertAcc) (j : Json) :
    (alertClassify acc j).isNone = (alertClassify acc2 j).isNone := by
  unfold alertClassify
  cases hl : j.get? "level" with
  | none => simp [hl]
  | some lvl =>
    simp only [hl]
    cases hc : lvl.strEq "CRITICAL" with
    | true =>
      simp only [hc, if_true]
      cases hf : j.get? "formatted" with
      | none => simp [hf]
      | some f =>
        simp only [hf]
        cases hs : f.asString? <;> simp [hs]
    | false =>
      simp only [hc, Bool.false_eq_true, if_false]
      cases hw : lvl.strEq "WARNING" with
      | true =>
        simp only [hw, if_true]
        cases hf : j.get? "formatted" with
        | none => simp [hf]
        | some f =>
          simp only [hf]
          cases hs : f.asString? <;> simp [hs]
      | false => simp [hw]

theorem alertStepJson_isNone (ignore_dismissed : Bool) (acc acc2 : AlertAcc) (j : Json) :
    (alertStepJson ignore_dismissed acc j).isNone =
      (alertStepJson ignore_dismissed acc2 j).isNone := by
  unfold alertStepJson
  cases ignore_dismissed with
  | false => simpa using alertClassify_isNone acc acc2 j
  | true =>
    simp only [if_true]
    cases hd : j.get? "dismissed" with
    | none => simp [hd]
    | some d =>
      simp only [hd]
      cases hdt : d.isTrue with
      | true => simp [hdt]
      | false => simpa [hdt] using alertClassify_isNone acc acc2 j

theorem replStepJson_isNone (acc acc2 : ReplAcc) (j : Json) :
    (replStepJson acc j).isNone = (replStepJson acc2 j).isNone := by
  unfold replStepJson
  cases h1 : j.get? "name" with
  | none => simp [h1]
  | some nameJ =>
    simp only [h1]
    cases h2 : j.get? "state" with
    | none => simp [h2]
    | some stateObj =>
      simp only [h2]
      cases h3 : stateObj.get? "state" with
      | none => simp [h3]
      | some codeJ =>
        simp only [h3]
        cases h4 : nameJ.asString? with
        | none => simp [h4]
        | some name =>
          try simp only [h4]
          cases h5 : codeJ.asString? <;> simp [h5]

theorem zpoolStepJson_isNone (zpool_name : String) (acc acc2 : ZpoolAcc) (j : Json) :
    (zpoolStepJson zpool_name acc j).isNone =
      (zpoolStepJson zpool_name acc2 j).isNone := by
  unfold zpoolStepJson
  cases h1 : j.get? "name" with
  | none => simp [h1]
  | some nameJ =>
    simp only [h1]
    cases h2 : j.get? "status" with
    | none => simp [h2]
    | some statusJ =>
      simp only [h2]
      cases h3 : nameJ.asString? with
      | none => simp [h3]
      | some pool_name =>
        simp only [h3]
        cases hrel : (looking_for_all_pools zpool_name || zpool_name == pool_name) with
        | false => simp [hrel]
        | true =>
          simp only [hrel, if_true]
          cases hst : statusJ.strEq "ONLINE" with
          | true => simp [hst]
          | false =>
            try simp only [hst]
            cases h4 : statusJ.asString? <;> simp [h4]

theorem run_check_alerts_struct (ignore_dismissed : Bool) (payload : Json)
    (h : alertsStructuralFailure ignore_dismissed payload = true) :
    run_check_alerts ignore_dismissed (FetchResult.ok payload) =
      structFailVerdict "check_alerts()" := by
  unfold alertsStructuralFailure at h
  unfold run_check_alerts
  cases hit : payload.iterElems with
  | none => simp [hit]
  | some items =>
    simp only [hit] at h ⊢
    have h2 : items.foldlM (alertStepJson ignore_dismissed) initAlertAcc = none :=
      Option.isNone_iff_eq_none.mp h
    simp [h2]

theorem run_check_repl_struct (payload : Json)
    (h : replStructuralFailure payload = true) :
    run_check_repl (FetchResult.ok payload) = structFailVerdict "check_repl()" := by
  unfold replStructuralFailure at h
  unfold run_check_repl
  cases hit : payload.iterElems with
  | none => simp [hit]
  | some items =>
    simp only [hit] at h ⊢
    have h2 : items.foldlM replStepJson initReplAcc = none :=
      Option.isNone_iff_eq_none.mp h
    simp [h2]

theorem run_check_zpool_struct (zpool_name : String) (payload : Json)
    (h : zpoolStructuralFailure zpool_name payload = true) :
    run_check_zpool zpool_name (FetchResult.ok payload) =
      structFailVerdict "check_zpool()" := by
  unfold zpoolStructuralFailure at h
  unfold run_check_zpool
  cases hit : payload.iterElems with
  | none => simp [hit]
  | some items =>
    simp only [hit] at h ⊢
    have h2 : items.foldlM (zpoolStepJson zpool_name) initZpoolAcc = none :=
      Option.isNone_iff_eq_none.mp h
    simp [h2]

theorem run_check_update_struct (payload : Json)
    (h : updateStructuralFailure payload = true) :
    run_check_update (FetchResult.ok payload) =
      Outcome.verdict (structFailVerdict "check_update()") := by
  unfold updateStructuralFailure at h
  unfold run_check_update
  have h2 : payload.get? "status" = none := Option.isNone_iff_eq_none.mp h
  simp [h2]

theorem run_check_update_crash (payload : Json) (h : updateCrashes payload = true) :
    run_check_update (FetchResult.ok payload) = Outcome.uncaught := by
  unfold updateCrashes at h
  unfold run_check_update
  cases hs : payload.get? "status" with
  | none => simp [hs] at h
  | some sJ =>
    simp only [hs] at h ⊢
    cases sJ with
    | str s => simp at h
    | null => rfl
    | bool b => rfl
    | num n => rfl
    | arr l => rfl
    | obj f => rfl

theorem run_check_update_uncaught (fetch : FetchResult)
    (h : run_check_update fetch = Outcome.uncaught) :
    ∃ payload : Json, fetch = FetchResult.ok payload ∧ updateCrashes payload = true := by
  cases fetch with
  | transportError d => simp [run_check_update] at h
  | jsonError d => simp [run_check_update] at h
  | ok payload =>
    refine ⟨payload, rfl, ?_⟩
    unfold run_check_update at h
    unfold updateCrashes
    cases hs : payload.get? "status" with
    | none => simp [hs] at h
    | some sJ =>
      simp only [hs] at h ⊢
      cases sJ with
      | str s => simp at h
      | null => rfl
      | bool b => rfl
      | num n => rfl
      | arr l => rfl
      | obj f => rfl

/-- C8 counterexample: a present but non-string status value is a
wrong-shape structural input to the update check, yet the outcome is not an
UNKNOWN exit-3 verdict: the process crashes uncaught with exit status 1,
the WARNING exit code, and prints no stdout line at all. -/
theorem update_crash_counterexample :
    updateCrashes (Json.obj [("status", Json.num 5)]) = true ∧
    run_check_update (FetchResult.ok (Json.obj [("status", Json.num 5)])) =
      Outcome.uncaught ∧
    (run_check_update (FetchResult.ok (Json.obj [("status", Json.num 5)]))).exitCode = 1 ∧
    (run_check_update (FetchResult.ok (Json.obj [("status", Json.num 5)]))).exitCode ≠ 3 ∧
    (run_check_update (FetchResult.ok (Json.obj [("status", Json.num 5)]))).printedLine =
      none := by
  decide

/-- C8 (amended): transport failures and JSON-decode failures in every
category, and structural failures raised inside the checks' try blocks —
a non-iterable payload or a malformed yielded record for the alerts,
replication and zpool loops, a missing status field for the update check —
all collapse to exit code 3 with the corresponding fixed UNKNOWN line and
no fragment of any record in the output; on an iterable payload such a
failure is exactly the presence of a record the loop body raises on.  The
exception the counterexample forces: in the update check a status field
that is present but not a string fails outside the try block, crashing the
process uncaught with exit status 1 and no stdout line, so that one
wrong-shape failure surfaces with the WARNING exit code instead of
UNKNOWN. -/
theorem failure_collapses_to_unknown (ignore_dismissed : Bool)
    (zpool_name detail : String) (payload : Json) :
    (run_check_alerts ignore_dismissed (FetchResult.transportError detail) =
        transportFailVerdict detail) ∧
    (run_check_repl (FetchResult.transportError detail) = transportFailVerdict detail) ∧
    (run_check_update (FetchResult.transportError detail) =
        Outcome.verdict (transportFailVerdict detail)) ∧
    (run_check_zpool zpool_name (FetchResult.transportError detail) =
        transportFailVerdict detail) ∧
    (run_check_alerts ignore_dismissed (FetchResult.jsonError detail) =
        jsonFailVerdict detail) ∧
    (run_check_repl (FetchResult.jsonError detail) = jsonFailVerdict detail) ∧
    (run_check_update (FetchResult.jsonError detail) =
        Outcome.verdict (jsonFailVerdict detail)) ∧
    (run_check_zpool zpool_name (FetchResult.jsonError detail) = jsonFailVerdict detail) ∧
    (alertsStructuralFailure ignore_dismissed payload = true →
        run_check_alerts ignore_dismissed (FetchResult.ok payload) =
          structFailVerdict "check_alerts()") ∧
    (replStructuralFailure payload = true →
        run_check_repl (FetchResult.ok payload) = structFailVerdict "check_repl()") ∧
    (updateStructuralFailure payload = true →
        run_check_update (FetchResult.ok payload) =
          Outcome.verdict (structFailVerdict "check_update()")) ∧
    (zpoolStructuralFailure zpool_name payload = true →
        run_check_zpool zpool_name (FetchResult.ok payload) =
          structFailVerdict "check_zpool()") ∧
    (updateCrashes payload = true →
        run_check_update (FetchResult.ok payload) = Outcome.uncaught) ∧
    Outcome.uncaught.exitCode = 1 ∧
    Outcome.uncaught.printedLine = none ∧
    (∀ items : List Json,
        alertsStructuralFailure ignore_dismissed (Json.arr items) =
          items.any (fun j => (alertStepJson ignore_dismissed initAlertAcc j).isNone)) ∧
    (∀ items : List Json,
        replStructuralFailure (Json.arr items) =
          items.any (fun j => (replStepJson initReplAcc j).isNone)) ∧
    (∀ items : List Json,
        zpoolStructuralFailure zpool_name (Json.arr items) =
          items.any (fun j => (zpoolStepJson zpool_name initZpoolAcc j).isNone)) ∧
    (transportFailVerdict detail).exitCode = 3 ∧
    (jsonFailVerdict detail).exitCode = 3 ∧
    (∀ s : String, (structFailVerdict s).exitCode = 3) := by
  refine ⟨rfl, rfl, rfl, rfl, rfl, rfl, rfl, rfl,
    run_check_alerts_struct ignore_dismissed payload,
    run_check_repl_struct payload,
    run_check_update_struct payload,
    run_check_zpool_struct zpool_name payload,
    run_check_update_crash payload,
    rfl, rfl,
    ?_, ?_, ?_, rfl, rfl, fun s => rfl⟩
  · intro items
    exact foldlM_none_char (alertStepJson ignore_dismissed) _
      (fun acc a => alertStepJson_isNone ignore_dismissed acc initAlertAcc a) items initAlertAcc
  · intro items
    exact foldlM_none_char replStepJson _
      (fun acc a => replStepJson_isNone acc initReplAcc a) items initReplAcc
  · intro items
    exact foldlM_none_char (zpoolStepJson zpool_name) _
      (fun acc a => zpoolStepJson_isNone zpool_name acc initZpoolAcc a) items initZpoolAcc

/-- C8 witness: a transport failure, a record with a missing field, and a
non-string status, each taking its proved path. -/
theorem failure_collapses_to_unknown_witness :
    run_check_alerts false (FetchResult.transportError "connection refused") =
      transportFailVerdict "connection refused" ∧
    alertsStructuralFailure false (Json.arr [Json.obj []]) = true ∧
    run_check_alerts false (FetchResult.ok (Json.arr [Json.obj []])) =
      structFailVerdict "check_alerts()" ∧
    updateCrashes (Json.obj [("status", Json.bool true)]) = true ∧
    run_check_update (FetchResult.ok (Json.obj [("status", Json.bool true)])) =
      Outcome.uncaught ∧
    (structFailVerdict "check_alerts()").exitCode = 3 :=
  ⟨(failure_collapses_to_unknown false "all" "connection refused"
      (Json.arr [Json.obj []])).1,
   by decide,
   (failure_collapses_to_unknown false "all" "connection refused"
      (Json.arr [Json.obj []])).2.2.2.2.2.2.2.2.1 (by decide),
   by decide,
   (failure_collapses_to_unknown false "all" "connection refused"
      (Json.obj [("status", Json.bool true)])).2.2.2.2.2.2.2.2.2.2.2.2.1 (by decide),
   by decide⟩

/-! ## Severity word and exit code agreement -/

theorem verdictConsistent_append (head rest : String) (code : Nat) (hsp : ' ' ∈ head.data)
    (h : verdictConsistent ⟨head, code⟩ = true) :
    verdictConsistent ⟨head ++ rest, code⟩ = true := by
  have hft : firstToken (head ++ rest) = firstToken head := firstToken_append _ _ hsp
  simpa [verdictConsistent, hft] using h

theorem finish_check_alerts_consistent (acc : AlertAcc) :
    verdictConsistent (finish_check_alerts acc) = true := by
  unfold finish_check_alerts
  split
  · rw [String.append_assoc]
    exact verdictConsistent_append "CRITICAL " _ 2 (by decide) (by decide)
  · split
    · exact verdictConsistent_append "WARNING " _ 1 (by decide) (by decide)
    · decide

theorem finish_check_repl_consistent (acc : ReplAcc) :
    verdictConsistent (finish_check_repl acc) = true := by
  unfold finish_check_repl
  split
  · simp only [String.append_assoc]
    exact verdictConsistent_append "WARNING - There are " _ 1 (by decide) (by decide)
  · exact verdictConsistent_append "OK - No replication errors. Replications examined: " _ 0
      (by decide) (by decide)

theorem check_update_consistent (s : String) :
    verdictConsistent (check_update s) = true := by
  simp only [check_update]
  cases hdict : updateCheckResultDict s with
  | some desc =>
    try simp only [hdict]
    split_ifs
    · simp only [String.append_assoc]
      exact verdictConsistent_append "WARNING - Update Status: " _ 1 (by decide) (by decide)
    · simp only [String.append_assoc]
      exact verdictConsistent_append "OK - Update Status: " _ 0 (by decide) (by decide)
  | none =>
    try simp only [hdict]
    split_ifs
    · simp only [String.append_assoc]
      exact verdictConsistent_append "WARNING - Unknown Update Status: " _ 1
        (by decide) (by decide)
    · simp only [String.append_assoc]
      exact verdictConsistent_append "OK - Update Status: " _ 0 (by decide) (by decide)

theorem finish_check_zpool_consistent (zpool_name : String) (acc : ZpoolAcc) :
    verdictConsistent (finish_check_zpool zpool_name acc) = true := by
  have hCRIT : ∀ M W : String, verdictConsistent ⟨"CRITICAL " ++ M ++ W, 2⟩ = true := by
    intro M W
    rw [String.append_assoc]
    exact verdictConsistent_append "CRITICAL " _ 2 (by decide) (by decide)
  have hWARN : ∀ W : String, verdictConsistent ⟨"WARNING " ++ W, 1⟩ = true := fun W =>
    verdictConsistent_append "WARNING " _ 1 (by decide) (by decide)
  have hOK : ∀ E : String,
      verdictConsistent ⟨"OK - No problem Zpools. Zpools examined: " ++ E, 0⟩ = true := fun E =>
    verdictConsistent_append "OK - No problem Zpools. Zpools examined: " _ 0
      (by decide) (by decide)
  simp only [finish_check_zpool]
  split_ifs
  all_goals first
    | exact hCRIT _ _
    | exact hWARN _
    | exact hOK _

theorem transportFailVerdict_consistent (d : String) :
    verdictConsistent (transportFailVerdict d) = true :=
  verdictConsistent_append "UNKNOWN - request failed - Error when contacting TrueNAS server: "
    d 3 (by decide) (by decide)

theorem jsonFailVerdict_consistent (d : String) :
    verdictConsistent (jsonFailVerdict d) = true :=
  verdictConsistent_append "UNKNOWN - json failed to parse - Error when contacting TrueNAS server: "
    d 3 (by decide) (by decide)

theorem structFailVerdict_consistent (s : String) :
    verdictConsistent (structFailVerdict s) = true := by
  unfold structFailVerdict
  simp only [String.append_assoc]
  exact verdictConsistent_append "UNKNOWN - " _ 3 (by decide) (by decide)

theorem run_check_alerts_consistent (ignore_dismissed : Bool) (fetch : FetchResult) :
    verdictConsistent (run_check_alerts ignore_dismissed fetch) = true := by
  cases fetch with
  | transportError d => exact transportFailVerdict_consistent d
  | jsonError d => exact jsonFailVerdict_consistent d
  | ok payload =>
    unfold run_check_alerts
    cases hit : payload.iterElems with
    | none =>
      simp only [hit]
      exact structFailVerdict_consistent "check_alerts()"
    | some items =>
      simp only [hit]
      cases hfold : items.foldlM (alertStepJson ignore_dismissed) initAlertAcc with
      | some acc =>
        simp only [hfold]
        exact finish_check_alerts_consistent acc
      | none =>
        simp only [hfold]
        exact structFailVerdict_consistent "check_alerts()"

theorem run_check_repl_consistent (fetch : FetchResult) :
    verdictConsistent (run_check_repl fetch) = true := by
  cases fetch with
  | transportError d => exact transportFailVerdict_consistent d
  | jsonError d => exact jsonFailVerdict_consistent d
  | ok payload =>
    unfold run_check_repl
    cases hit : payload.iterElems with
    | none =>
      simp only [hit]
      exact structFailVerdict_consistent "check_repl()"
    | some items =>
      simp only [hit]
      cases hfold : items.foldlM replStepJson initReplAcc with
      | some acc =>
        simp only [hfold]
        exact finish_check_repl_consistent acc
      | none =>
        simp only [hfold]
        exact structFailVerdict_consistent "check_repl()"

theorem run_check_zpool_consistent (zpool_name : String) (fetch : FetchResult) :
    verdictConsistent (run_check_zpool zpool_name fetch) = true := by
  cases fetch with
  | transportError d => exact transportFailVerdict_consistent d
  | jsonError d => exact jsonFailVerdict_consistent d
  | ok payload =>
    unfold run_check_zpool
    cases hit : payload.iterElems with
    | none =>
      simp only [hit]
      exact structFailVerdict_consistent "check_zpool()"
    | some items =>
      simp only [hit]
      cases hfold : items.foldlM (zpoolStepJson zpool_name) initZpoolAcc with
      | some acc =>
        simp only [hfold]
        exact finish_check_zpool_consistent zpool_name acc
      | none =>
        simp only [hfold]
        exact structFailVerdict_consistent "check_zpool()"

theorem run_check_update_outcome_consistent (fetch : FetchResult) :
    outcomeConsistent (run_check_update fetch) = true := by
  cases fetch with
  | transportError d => exact transportFailVerdict_consistent d
  | jsonError d => exact jsonFailVerdict_consistent d
  | ok payload =>
    unfold run_check_update
    cases hs : payload.get? "status" with
    | none =>
      simp only [hs]
      exact structFailVerdict_consistent "check_update()"
    | some sJ =>
      simp only [hs]
      cases sJ with
      | str s => exact check_update_consistent s
      | null => rfl
      | bool b => rfl
      | num n => rfl
      | arr l => rfl
      | obj f => rfl

theorem exit_mem_of_consistent (v : Verdict) (h : verdictConsistent v = true) :
    v.exitCode ∈ ([0, 1, 2, 3] : List Nat) := by
  unfold verdictConsistent at h
  simp only [Bool.or_eq_true, Bool.and_eq_true, beq_iff_eq] at h
  rcases h with ((⟨h, _⟩ | ⟨h, _⟩) | ⟨h, _⟩) | ⟨h, _⟩ <;> simp [h]

theorem outcome_exit_mem (o : Outcome) (h : outcomeConsistent o = true) :
    o.exitCode ∈ ([0, 1, 2, 3] : List Nat) := by
  cases o with
  | verdict v => exact exit_mem_of_consistent v h
  | uncaught => simp [Outcome.exitCode]

/-- C9 (amended): the dispatcher's exit code is always one of 0, 1, 2, 3.
For the four recognized categories, whenever a line is printed to stdout
its first token is the severity word matching the exit code; the only
invocation that prints no line is the update category on a response whose
status field is present but not a string, which crashes uncaught with exit
code 1.  An unrecognized category exits 3 but its line begins with
"Unknown type:", whose first token is not a severity word. -/
theorem dispatcher_exit_and_severity (ignore_dismissed : Bool)
    (zpool_name alert_type : String) (fetch : FetchResult) :
    (handle_requested_alert_type ignore_dismissed zpool_name alert_type fetch).exitCode ∈
      ([0, 1, 2, 3] : List Nat) ∧
    ((alert_type = "alerts" ∨ alert_type = "repl" ∨ alert_type = "update" ∨
        alert_type = "zpool") →
      outcomeConsistent
        (handle_requested_alert_type ignore_dismissed zpool_name alert_type fetch) = true) ∧
    (handle_requested_alert_type ignore_dismissed zpool_name alert_type fetch =
        Outcome.uncaught →
      alert_type = "update" ∧ ∃ payload : Json,
        fetch = FetchResult.ok payload ∧ updateCrashes payload = true) := by
  have halerts := run_check_alerts_consistent ignore_dismissed fetch
  have hrepl := run_check_repl_consistent fetch
  have hupdate := run_check_update_outcome_consistent fetch
  have hzpool := run_check_zpool_consistent zpool_name fetch
  unfold handle_requested_alert_type
  by_cases h1 : alert_type = "alerts"
  · simp only [h1, beq_self_eq_true, if_true]
    exact ⟨exit_mem_of_consistent _ halerts, fun _ => halerts, fun h => absurd h (by simp)⟩
  · have h1f : (alert_type == "alerts") = false := beq_eq_false_iff_ne.mpr h1
    simp only [h1f, Bool.false_eq_true, if_false]
    by_cases h2 : alert_type = "repl"
    · simp only [h2, beq_self_eq_true, if_true]
      exact ⟨exit_mem_of_consistent _ hrepl, fun _ => hrepl, fun h => absurd h (by simp)⟩
    · have h2f : (alert_type == "repl") = false := beq_eq_false_iff_ne.mpr h2
      simp only [h2f, Bool.false_eq_true, if_false]
      by_cases h3 : alert_type = "update"
      · simp only [h3, beq_self_eq_true, if_true]
        exact ⟨outcome_exit_mem _ hupdate, fun _ => hupdate,
          fun h => ⟨by trivial, run_check_update_uncaught fetch h⟩⟩
      · have h3f : (alert_type == "update") = false := beq_eq_false_iff_ne.mpr h3
        simp only [h3f, Bool.false_eq_true, if_false]
        by_cases h4 : alert_type = "zpool"
        · simp only [h4, beq_self_eq_true, if_true]
          exact ⟨exit_mem_of_consistent _ hzpool, fun _ => hzpool,
            fun h => absurd h (by simp)⟩
        · have h4f : (alert_type == "zpool") = false := beq_eq_false_iff_ne.mpr h4
          simp only [h4f, Bool.false_eq_true, if_false]
          refine ⟨by simp [Outcome.exitCode], ?_, fun h => absurd h (by simp)⟩
          intro hcat
          rcases hcat with hc | hc | hc | hc
          · exact absurd hc h1
          · exact absurd hc h2
          · exact absurd hc h3
          · exact absurd hc h4

/-- C9 counterexample: the unrecognized category "bogus" exits 3 but its
line's first token is "Unknown", not the severity word "UNKNOWN"; and the
recognized category "update" on a payload whose status is the number 5
crashes uncaught — exit code 1 and no stdout line at all — so no severity
word is the first token of any printed line. -/
theorem dispatcher_severity_counterexample :
    handle_requested_alert_type false "all" "bogus" (FetchResult.ok (Json.arr [])) =
      Outcome.verdict ⟨"Unknown type: bogus", 3⟩ ∧
    firstToken "Unknown type: bogus" = "Unknown" ∧
    verdictConsistent ⟨"Unknown type: bogus", 3⟩ = false ∧
    handle_requested_alert_type false "all" "update"
        (FetchResult.ok (Json.obj [("status", Json.num 5)])) = Outcome.uncaught ∧
    (handle_requested_alert_type false "all" "update"
        (FetchResult.ok (Json.obj [("status", Json.num 5)]))).printedLine = none ∧
    (handle_requested_alert_type false "all" "update"
        (FetchResult.ok (Json.obj [("status", Json.num 5)]))).exitCode = 1 := by
  decide

/-- C9 witness: category "alerts" with a failing transport. -/
theorem dispatcher_exit_and_severity_witness :
    (handle_requested_alert_type false "all" "alerts"
        (FetchResult.transportError "boom")).exitCode ∈ ([0, 1, 2, 3] : List Nat) ∧
    outcomeConsistent (handle_requested_alert_type false "all" "alerts"
        (FetchResult.transportError "boom")) = true :=
  ⟨(dispatcher_exit_and_severity false "all" "alerts" (FetchResult.transportError "boom")).1,
   (dispatcher_exit_and_severity false "all" "alerts" (FetchResult.transportError "boom")).2.1
     (Or.inl rfl)⟩
